import Mathlib

/-!
Shallow embedding of `src/lib/mortgageMath.js` (computeBaselineMortgage,
simulateVelocityBanking, simulateExtraPaymentStrategy,
simulateInvestmentStrategy, simulateAllStrategies).

JavaScript numbers are modelled by exact rationals `ℚ`; the month counters
and the term are integers (the code only uses them as loop counts and in the
closed-form payment formula's integer exponent).  Each `while` loop is
embedded as a fuel recursion whose fuel is exactly the remaining number of
iterations allowed by the `months < maxMonthsSimulated` test, so the fuel
model is the loop bound of the source, not an approximation.  The single
`throw` in the velocity-banking simulator is modelled with `Except String`.
-/

namespace SmartMortgage

/-- Parameters of `computeBaselineMortgage`. -/
structure BaselineParams where
  mortgageBalance : ℚ
  mortgageTermMonths : ℤ
  mortgageRateAnnual : ℚ
  maxMonthsSimulated : ℕ := 1200
deriving Repr, DecidableEq

/-- Result record of `computeBaselineMortgage`. -/
structure BaselineResult where
  baselineMonthlyPayment : ℚ
  baselineMonths : ℕ
  totalInterestBaseline : ℚ
deriving Repr, DecidableEq

/-- The level-payment formula shared verbatim by `computeBaselineMortgage`
and `simulateExtraPaymentStrategy`:
`rM > 0 ? P0*rM / (1 - (1+rM)^(-nM)) : P0 / nM`. -/
def monthlyPaymentFormula (P0 : ℚ) (nM : ℤ) (rM : ℚ) : ℚ :=
  if rM > 0 then P0 * rM / (1 - (1 + rM) ^ (-nM)) else P0 / (nM : ℚ)

/-- The `while (balance > 0 && months < maxMonthsSimulated)` loop of
`computeBaselineMortgage`, with fuel = `maxMonthsSimulated - months`.
Returns `(baselineMonths, totalInterestBaseline)`. -/
def baselineLoop (rM pmt : ℚ) : ℕ → ℚ → ℚ → ℕ → ℕ × ℚ
  | 0, _, totalInterest, months => (months, totalInterest)
  | fuel + 1, balance, totalInterest, months =>
    if balance > 0 then
      let interest := balance * rM
      let payment := min pmt (balance + interest)
      let principal := payment - interest
      let balance' := balance - principal
      baselineLoop rM pmt fuel (if balance' < 0 then 0 else balance')
        (totalInterest + interest) (months + 1)
    else
      (months, totalInterest)

/-- Embedding of `computeBaselineMortgage` from `src/lib/mortgageMath.js`. -/
def computeBaselineMortgage (p : BaselineParams) : BaselineResult :=
  if p.mortgageBalance ≤ 0 ∨ p.mortgageTermMonths ≤ 0 then
    { baselineMonthlyPayment := 0, baselineMonths := 0, totalInterestBaseline := 0 }
  else
    let rM := p.mortgageRateAnnual / 12
    let pmt := monthlyPaymentFormula p.mortgageBalance p.mortgageTermMonths rM
    let res := baselineLoop rM pmt p.maxMonthsSimulated p.mortgageBalance 0 0
    { baselineMonthlyPayment := pmt, baselineMonths := res.1, totalInterestBaseline := res.2 }

/-- Parameters of `simulateExtraPaymentStrategy`. -/
structure ExtraParams where
  mortgageBalance : ℚ
  mortgageTermMonths : ℤ
  mortgageRateAnnual : ℚ
  extraPaymentPerMonth : ℚ
  maxMonthsSimulated : ℕ := 1200
deriving Repr, DecidableEq

/-- Result record shape `{ monthlyPayment, totalMonths, totalInterest }`
returned by `simulateExtraPaymentStrategy` and reused for the `baseline`
and `extraPayment` summaries of `simulateAllStrategies`. -/
structure SummaryResult where
  monthlyPayment : ℚ
  totalMonths : ℕ
  totalInterest : ℚ
deriving Repr, DecidableEq

/-- The loop of `simulateExtraPaymentStrategy`: the baseline recurrence plus
`extraPrincipal = min(extraPaymentPerMonth, balance - principalFromRegular)`.
Returns `(totalMonths, totalInterest)`. -/
def extraLoop (rM pmt extra : ℚ) : ℕ → ℚ → ℚ → ℕ → ℕ × ℚ
  | 0, _, totalInterest, months => (months, totalInterest)
  | fuel + 1, balance, totalInterest, months =>
    if balance > 0 then
      let interest := balance * rM
      let regularPayment := min pmt (balance + interest)
      let principalFromRegular := regularPayment - interest
      let extraPrincipal := min extra (balance - principalFromRegular)
      let totalPrincipalPaid := principalFromRegular + extraPrincipal
      let balance' := balance - totalPrincipalPaid
      extraLoop rM pmt extra fuel (if balance' < 0 then 0 else balance')
        (totalInterest + interest) (months + 1)
    else
      (months, totalInterest)

/-- Embedding of `simulateExtraPaymentStrategy` from `src/lib/mortgageMath.js`. -/
def simulateExtraPaymentStrategy (p : ExtraParams) : SummaryResult :=
  if p.mortgageBalance ≤ 0 ∨ p.mortgageTermMonths ≤ 0 then
    { monthlyPayment := 0, totalMonths := 0, totalInterest := 0 }
  else
    let rM := p.mortgageRateAnnual / 12
    let pmt := monthlyPaymentFormula p.mortgageBalance p.mortgageTermMonths rM
    let res := extraLoop rM pmt p.extraPaymentPerMonth p.maxMonthsSimulated p.mortgageBalance 0 0
    { monthlyPayment := pmt + p.extraPaymentPerMonth, totalMonths := res.1, totalInterest := res.2 }

/-- Parameters of `simulateVelocityBanking`. -/
structure VelocityParams where
  mortgageBalance : ℚ
  mortgageTermMonths : ℤ
  mortgageRateAnnual : ℚ
  helocRateAnnual : ℚ
  helocChunkAmount : ℚ
  helocPaymentPerMonth : ℚ
  repeatChunks : Bool := false
  maxMonthsSimulated : ℕ := 1200
deriving Repr, DecidableEq

/-- The mutable locals of the velocity-banking loop:
`mortBal`, `helocBal`, `totalInterestMortgageVB`, `totalInterestHelocVB`,
`monthsVB`. -/
structure VBState where
  mortBal : ℚ
  helocBal : ℚ
  totalInterestMortgage : ℚ
  totalInterestHeloc : ℚ
  months : ℕ
deriving Repr, DecidableEq

/-- The exact message of the `throw new Error(...)` in the HELOC step. -/
def negAmortizationMsg : String :=
  "HELOC payment is too low to pay down the balance (negative amortization). Increase HELOC payment."

/-- The `// Mortgage step` block of the velocity loop. -/
def vbMortgageStep (rM pmt : ℚ) (s : VBState) : VBState :=
  if s.mortBal > 0 then
    let mortInterest := s.mortBal * rM
    let mortPayment := min pmt (s.mortBal + mortInterest)
    let mortPrincipal := mortPayment - mortInterest
    let newBal := s.mortBal - mortPrincipal
    { s with
      mortBal := if newBal < 0 then 0 else newBal,
      totalInterestMortgage := s.totalInterestMortgage + mortInterest }
  else s

/-- The `// HELOC step` block of the velocity loop, including the
negative-amortization check
`helocPaymentPerMonth <= helocInterest && helocBal > 0.01`. -/
def vbHelocStep (rH helocPmt : ℚ) (s : VBState) : Except String VBState :=
  if s.helocBal > 0 then
    let helocInterest := s.helocBal * rH
    if helocPmt ≤ helocInterest ∧ s.helocBal > 0.01 then
      .error negAmortizationMsg
    else
      let helocPayment := min helocPmt (s.helocBal + helocInterest)
      let helocPrincipal := helocPayment - helocInterest
      let newBal := s.helocBal - helocPrincipal
      .ok { s with
            helocBal := if newBal < 0 then 0 else newBal,
            totalInterestHeloc := s.totalInterestHeloc + helocInterest }
  else .ok s

/-- The `// Repeat chunk (classic velocity banking)` block. -/
def vbRepeatStep (chunk : ℚ) (repeatChunks : Bool) (s : VBState) : VBState :=
  if repeatChunks = true ∧ s.helocBal = 0 ∧ s.mortBal > 0 then
    let nextChunk := min chunk s.mortBal
    if nextChunk > 0 then
      { s with mortBal := s.mortBal - nextChunk, helocBal := s.helocBal + nextChunk }
    else s
  else s

/-- One iteration of the velocity loop body: `monthsVB++`, mortgage step,
HELOC step (which may throw), repeat-chunk step, in source order. -/
def vbMonth (rM rH pmt helocPmt chunk : ℚ) (repeatChunks : Bool) (s : VBState) :
    Except String VBState :=
  match vbHelocStep rH helocPmt (vbMortgageStep rM pmt { s with months := s.months + 1 }) with
  | .error e => .error e
  | .ok s2 => .ok (vbRepeatStep chunk repeatChunks s2)

/-- The `while ((mortBal > 0 || helocBal > 0) && monthsVB < maxMonthsSimulated)`
loop, with fuel = `maxMonthsSimulated - monthsVB`. -/
def vbLoop (rM rH pmt helocPmt chunk : ℚ) (repeatChunks : Bool) :
    ℕ → VBState → Except String VBState
  | 0, s => .ok s
  | fuel + 1, s =>
    if s.mortBal > 0 ∨ s.helocBal > 0 then
      match vbMonth rM rH pmt helocPmt chunk repeatChunks s with
      | .error e => .error e
      | .ok s' => vbLoop rM rH pmt helocPmt chunk repeatChunks fuel s'
    else
      .ok s

/-- Result record of `simulateVelocityBanking`. -/
structure VBResult where
  baselineMonthlyPayment : ℚ
  baselineMonths : ℕ
  totalInterestBaseline : ℚ
  monthsVB : ℕ
  totalInterestMortgageVB : ℚ
  totalInterestHelocVB : ℚ
  totalInterestVBCombined : ℚ
  interestSaved : ℚ
  timeSavedMonths : ℤ
  yearsSaved : ℚ
deriving Repr, DecidableEq

/-- The loan parameters a velocity simulation hands to
`computeBaselineMortgage`. -/
def velocityLoan (p : VelocityParams) : BaselineParams :=
  { mortgageBalance := p.mortgageBalance
    mortgageTermMonths := p.mortgageTermMonths
    mortgageRateAnnual := p.mortgageRateAnnual
    maxMonthsSimulated := p.maxMonthsSimulated }

/-- The `// Initial HELOC chunk` block: the loop's starting state, with
`initialChunk = min(helocChunkAmount, mortBal)` drawn from the line and
applied to the mortgage before month 1. -/
def vbInitialState (p : VelocityParams) : VBState :=
  { mortBal := p.mortgageBalance - min p.helocChunkAmount p.mortgageBalance
    helocBal := min p.helocChunkAmount p.mortgageBalance
    totalInterestMortgage := 0
    totalInterestHeloc := 0
    months := 0 }

/-- The trailing `return { ... }` block of `simulateVelocityBanking`,
assembling the result record from the baseline result and the final loop
state (`combined = totalInterestMortgageVB + totalInterestHelocVB`). -/
def vbAssemble (baseline : BaselineResult) (s : VBState) : VBResult :=
  { baselineMonthlyPayment := baseline.baselineMonthlyPayment
    baselineMonths := baseline.baselineMonths
    totalInterestBaseline := baseline.totalInterestBaseline
    monthsVB := s.months
    totalInterestMortgageVB := s.totalInterestMortgage
    totalInterestHelocVB := s.totalInterestHeloc
    totalInterestVBCombined := s.totalInterestMortgage + s.totalInterestHeloc
    interestSaved := baseline.totalInterestBaseline - (s.totalInterestMortgage + s.totalInterestHeloc)
    timeSavedMonths := (baseline.baselineMonths : ℤ) - (s.months : ℤ)
    yearsSaved := (((baseline.baselineMonths : ℤ) - (s.months : ℤ) : ℤ) : ℚ) / 12 }

/-- Embedding of `simulateVelocityBanking` from `src/lib/mortgageMath.js`.  The `throw`
is modelled as `Except.error`.  When `helocChunkAmount ≤ 0` the function
returns the baseline result directly without entering the two-balance loop. -/
def simulateVelocityBanking (p : VelocityParams) : Except String VBResult :=
  if p.helocChunkAmount ≤ 0 then
    let baseline := computeBaselineMortgage (velocityLoan p)
    .ok { baselineMonthlyPayment := baseline.baselineMonthlyPayment
          baselineMonths := baseline.baselineMonths
          totalInterestBaseline := baseline.totalInterestBaseline
          monthsVB := baseline.baselineMonths
          totalInterestMortgageVB := baseline.totalInterestBaseline
          totalInterestHelocVB := 0
          totalInterestVBCombined := baseline.totalInterestBaseline
          interestSaved := 0
          timeSavedMonths := 0
          yearsSaved := 0 }
  else
    let baseline := computeBaselineMortgage (velocityLoan p)
    match vbLoop (p.mortgageRateAnnual / 12) (p.helocRateAnnual / 12)
        baseline.baselineMonthlyPayment p.helocPaymentPerMonth
        p.helocChunkAmount p.repeatChunks p.maxMonthsSimulated (vbInitialState p) with
    | .error e => .error e
    | .ok s => .ok (vbAssemble baseline s)

/-- The month count a velocity simulation reports (`0` for the error
outcome, which reports no month count at all). -/
def vbMonthsOf (o : Except String VBResult) : ℕ :=
  match o with
  | .error _ => 0
  | .ok r => r.monthsVB

/-- Parameters of `simulateInvestmentStrategy`. -/
structure InvestmentParams where
  investmentTermMonths : ℤ
  extraPaymentPerMonth : ℚ
  investmentReturnAnnual : ℚ
  baselineInterest : ℚ
  bestPaydownInterest : ℚ
deriving Repr, DecidableEq

/-- Result record of `simulateInvestmentStrategy`. -/
structure InvestmentResult where
  totalMonths : ℤ
  totalInvested : ℚ
  totalValue : ℚ
  investmentGains : ℚ
  netBenefit : ℚ
deriving Repr, DecidableEq

/-- The `for (let month = 1; month <= investmentTermMonths; month++)` loop:
each iteration does `totalInvested += c; totalValue = totalValue*(1+r) + c`.
State is `(totalInvested, totalValue)`. -/
def investLoop (r c : ℚ) : ℕ → ℚ × ℚ → ℚ × ℚ
  | 0, s => s
  | n + 1, (totalInvested, totalValue) =>
    investLoop r c n (totalInvested + c, totalValue * (1 + r) + c)

/-- Embedding of `simulateInvestmentStrategy` from `src/lib/mortgageMath.js`.
On rationals the guard `!x || x <= 0` is `x ≤ 0` (`!x` means `x = 0`), and
`investmentTermMonths || 0` in the degenerate branch is the identity, since
`0 || 0` is `0`. -/
def simulateInvestmentStrategy (p : InvestmentParams) : InvestmentResult :=
  if p.extraPaymentPerMonth ≤ 0 ∨ p.investmentTermMonths ≤ 0 then
    { totalMonths := p.investmentTermMonths
      totalInvested := 0
      totalValue := 0
      investmentGains := 0
      netBenefit := 0 }
  else
    let monthlyReturn := p.investmentReturnAnnual / 12
    let res := investLoop monthlyReturn p.extraPaymentPerMonth p.investmentTermMonths.toNat (0, 0)
    let investmentGains := res.2 - res.1
    let interestSavedByBestPaydown := p.baselineInterest - p.bestPaydownInterest
    { totalMonths := p.investmentTermMonths
      totalInvested := res.1
      totalValue := res.2
      investmentGains := investmentGains
      netBenefit := investmentGains - interestSavedByBestPaydown }

/-- Parameters of `simulateAllStrategies`.  The source's `x || 0` coercions
on `helocChunkAmount`, `helocPaymentPerMonth` and `investmentReturnAnnual`
are identities on rationals (`0 || 0` is `0`). -/
structure AllParams where
  mortgageBalance : ℚ
  mortgageTermMonths : ℤ
  mortgageRateAnnual : ℚ
  helocRateAnnual : ℚ
  helocChunkAmount : ℚ
  helocPaymentPerMonth : ℚ
  repeatChunks : Bool := false
  investmentReturnAnnual : ℚ := 0
  maxMonthsSimulated : ℕ := 1200
deriving Repr, DecidableEq

/-- The `velocity` summary record of `simulateAllStrategies`. -/
structure VelocitySummary where
  totalMonths : ℕ
  totalInterest : ℚ
  mortgageInterest : ℚ
  helocInterest : ℚ
deriving Repr, DecidableEq

/-- A `{ interestSaved, timeSavedMonths, yearsSaved }` comparison record. -/
structure Comparison where
  interestSaved : ℚ
  timeSavedMonths : ℤ
  yearsSaved : ℚ
deriving Repr, DecidableEq

/-- Record for `bestPaydownData` of `simulateAllStrategies`.  In the source its `data`
field holds the winning strategy's whole result record; both candidate
records expose `totalMonths` and `totalInterest`, the only fields the
orchestrator reads from `data`, so those two projections are stored. -/
structure BestPaydown where
  name : String
  dataTotalMonths : ℕ
  dataTotalInterest : ℚ
  comparison : Comparison
  color : String
deriving Repr, DecidableEq

/-- Record for `bestOverallStrategy` of `simulateAllStrategies` (winner tag fields). -/
structure BestOverall where
  name : String
  color : String
  type : String
deriving Repr, DecidableEq

/-- The `comparisons` record of `simulateAllStrategies`
(`investmentVsBestPaydown` holds its single `netBenefit` field). -/
structure Comparisons where
  extraVsBaseline : Comparison
  velocityVsBaseline : Comparison
  velocityVsExtra : Comparison
  investmentVsBestPaydown : ℚ
deriving Repr, DecidableEq

/-- Return record of `simulateAllStrategies`. -/
structure AllStrategiesResult where
  baseline : SummaryResult
  extraPayment : SummaryResult
  velocity : VelocitySummary
  investment : InvestmentResult
  bestPaydownStrategy : BestPaydown
  bestOverallStrategy : BestOverall
  comparisons : Comparisons
deriving Repr, DecidableEq

/-- Embedding of `simulateAllStrategies` from `src/lib/mortgageMath.js`.  The exception
thrown by `simulateVelocityBanking` propagates to the caller, hence the
`Except` return. -/
def simulateAllStrategies (p : AllParams) : Except String AllStrategiesResult :=
  let baseline := computeBaselineMortgage
    { mortgageBalance := p.mortgageBalance
      mortgageTermMonths := p.mortgageTermMonths
      mortgageRateAnnual := p.mortgageRateAnnual
      maxMonthsSimulated := p.maxMonthsSimulated }
  let extraPayment := simulateExtraPaymentStrategy
    { mortgageBalance := p.mortgageBalance
      mortgageTermMonths := p.mortgageTermMonths
      mortgageRateAnnual := p.mortgageRateAnnual
      extraPaymentPerMonth := p.helocPaymentPerMonth
      maxMonthsSimulated := p.maxMonthsSimulated }
  match simulateVelocityBanking
    { mortgageBalance := p.mortgageBalance
      mortgageTermMonths := p.mortgageTermMonths
      mortgageRateAnnual := p.mortgageRateAnnual
      helocRateAnnual := p.helocRateAnnual
      helocChunkAmount := p.helocChunkAmount
      helocPaymentPerMonth := p.helocPaymentPerMonth
      repeatChunks := p.repeatChunks
      maxMonthsSimulated := p.maxMonthsSimulated } with
  | .error e => .error e
  | .ok velocityResult =>
    let velocity : VelocitySummary :=
      { totalMonths := velocityResult.monthsVB
        totalInterest := velocityResult.totalInterestVBCombined
        mortgageInterest := velocityResult.totalInterestMortgageVB
        helocInterest := velocityResult.totalInterestHelocVB }
    let extraVsBaseline : Comparison :=
      { interestSaved := baseline.totalInterestBaseline - extraPayment.totalInterest
        timeSavedMonths := (baseline.baselineMonths : ℤ) - (extraPayment.totalMonths : ℤ)
        yearsSaved := (((baseline.baselineMonths : ℤ) - (extraPayment.totalMonths : ℤ) : ℤ) : ℚ) / 12 }
    let velocityVsBaseline : Comparison :=
      { interestSaved := baseline.totalInterestBaseline - velocity.totalInterest
        timeSavedMonths := (baseline.baselineMonths : ℤ) - (velocity.totalMonths : ℤ)
        yearsSaved := (((baseline.baselineMonths : ℤ) - (velocity.totalMonths : ℤ) : ℤ) : ℚ) / 12 }
    let velocityVsExtra : Comparison :=
      { interestSaved := extraPayment.totalInterest - velocity.totalInterest
        timeSavedMonths := (extraPayment.totalMonths : ℤ) - (velocity.totalMonths : ℤ)
        yearsSaved := (((extraPayment.totalMonths : ℤ) - (velocity.totalMonths : ℤ) : ℤ) : ℚ) / 12 }
    let bestPaydownData : BestPaydown :=
      if velocityVsBaseline.interestSaved > extraVsBaseline.interestSaved then
        { name := "Velocity Banking"
          dataTotalMonths := velocity.totalMonths
          dataTotalInterest := velocity.totalInterest
          comparison := velocityVsBaseline
          color := "velocity" }
      else
        { name := "Extra Payment"
          dataTotalMonths := extraPayment.totalMonths
          dataTotalInterest := extraPayment.totalInterest
          comparison := extraVsBaseline
          color := "extra" }
    let investment := simulateInvestmentStrategy
      { investmentTermMonths := (bestPaydownData.dataTotalMonths : ℤ)
        extraPaymentPerMonth := p.helocPaymentPerMonth
        investmentReturnAnnual := p.investmentReturnAnnual
        baselineInterest := baseline.totalInterestBaseline
        bestPaydownInterest := bestPaydownData.dataTotalInterest }
    let bestOverallStrategy : BestOverall :=
      if investment.netBenefit > 0 then
        { name := "Investment Strategy", color := "investment", type := "investment" }
      else
        { name := bestPaydownData.name, color := bestPaydownData.color, type := "paydown" }
    .ok
      { baseline :=
          { monthlyPayment := baseline.baselineMonthlyPayment
            totalMonths := baseline.baselineMonths
            totalInterest := baseline.totalInterestBaseline }
        extraPayment :=
          { monthlyPayment := extraPayment.monthlyPayment
            totalMonths := extraPayment.totalMonths
            totalInterest := extraPayment.totalInterest }
        velocity := velocity
        investment := investment
        bestPaydownStrategy := bestPaydownData
        bestOverallStrategy := bestOverallStrategy
        comparisons :=
          { extraVsBaseline := extraVsBaseline
            velocityVsBaseline := velocityVsBaseline
            velocityVsExtra := velocityVsExtra
            investmentVsBestPaydown := investment.netBenefit } }

/-- The ordinary-annuity recurrence `value 0 = 0`,
`value (m+1) = value m * (1 + r) + c` (contribution added after
compounding, i.e. end-of-month contributions): the closed specification
that the investment loop is checked against. -/
def annuityValue (r c : ℚ) : ℕ → ℚ
  | 0 => 0
  | m + 1 => annuityValue r c m * (1 + r) + c

/-- A concrete degenerate input (zero balance and term) for exercising the
strategy picker without running any amortization loop. -/
def bestPickParams : AllParams :=
  { mortgageBalance := 0
    mortgageTermMonths := 0
    mortgageRateAnnual := 0
    helocRateAnnual := 0
    helocChunkAmount := 0
    helocPaymentPerMonth := 0 }

/-- The report `simulateAllStrategies` produces on `bestPickParams`. -/
def bestPickResult : AllStrategiesResult :=
  ⟨⟨0, 0, 0⟩, ⟨0, 0, 0⟩, ⟨0, 0, 0, 0⟩, ⟨0, 0, 0, 0, 0⟩,
    ⟨"Extra Payment", 0, 0, ⟨0, 0, 0⟩, "extra"⟩,
    ⟨"Extra Payment", "extra", "paydown"⟩,
    ⟨⟨0, 0, 0⟩, ⟨0, 0, 0⟩, ⟨0, 0, 0⟩, 0⟩⟩

/-- A concrete degenerate input with a nonzero monthly payment amount, for
exercising the comparison records without running any amortization loop. -/
def comparatorParams : AllParams :=
  { mortgageBalance := 0
    mortgageTermMonths := 0
    mortgageRateAnnual := 0
    helocRateAnnual := 0
    helocChunkAmount := 0
    helocPaymentPerMonth := 30 }

/-- The report `simulateAllStrategies` produces on `comparatorParams`. -/
def comparatorResult : AllStrategiesResult :=
  ⟨⟨0, 0, 0⟩, ⟨0, 0, 0⟩, ⟨0, 0, 0, 0⟩, ⟨0, 0, 0, 0, 0⟩,
    ⟨"Extra Payment", 0, 0, ⟨0, 0, 0⟩, "extra"⟩,
    ⟨"Extra Payment", "extra", "paydown"⟩,
    ⟨⟨0, 0, 0⟩, ⟨0, 0, 0⟩, ⟨0, 0, 0⟩, 0⟩⟩

/-! Helper lemmas about the loops. -/

theorem baselineLoop_fst_le (rM pmt : ℚ) :
    ∀ (fuel : ℕ) (balance totalInterest : ℚ) (months : ℕ),
      (baselineLoop rM pmt fuel balance totalInterest months).1 ≤ months + fuel := by
  intro fuel
  induction fuel with
  | zero => intro b t m; simp [baselineLoop]
  | succ f ih =>
    intro b t m
    simp only [baselineLoop]
    split
    · exact le_trans (ih _ _ _) (by omega)
    · exact Nat.le_add_right m (f + 1)

theorem extraLoop_fst_le (rM pmt extra : ℚ) :
    ∀ (fuel : ℕ) (balance totalInterest : ℚ) (months : ℕ),
      (extraLoop rM pmt extra fuel balance totalInterest months).1 ≤ months + fuel := by
  intro fuel
  induction fuel with
  | zero => intro b t m; simp [extraLoop]
  | succ f ih =>
    intro b t m
    simp only [extraLoop]
    split
    · exact le_trans (ih _ _ _) (by omega)
    · exact Nat.le_add_right m (f + 1)

theorem extraLoop_zero (rM pmt : ℚ) :
    ∀ (fuel : ℕ) (balance totalInterest : ℚ) (months : ℕ),
      extraLoop rM pmt 0 fuel balance totalInterest months =
        baselineLoop rM pmt fuel balance totalInterest months := by
  intro fuel
  induction fuel with
  | zero => intro b t m; rfl
  | succ f ih =>
    intro b t m
    simp only [extraLoop, baselineLoop]
    split
    · have hple : min pmt (b + b * rM) - b * rM ≤ b := by
        have h := min_le_right pmt (b + b * rM)
        linarith
      rw [min_eq_left (by linarith : (0:ℚ) ≤ b - (min pmt (b + b * rM) - b * rM))]
      rw [add_zero]
      exact ih _ _ _
    · rfl

theorem computeBaselineMortgage_months_le (p : BaselineParams) :
    (computeBaselineMortgage p).baselineMonths ≤ p.maxMonthsSimulated := by
  unfold computeBaselineMortgage
  split
  · simp
  · have h := baselineLoop_fst_le (p.mortgageRateAnnual / 12)
      (monthlyPaymentFormula p.mortgageBalance p.mortgageTermMonths (p.mortgageRateAnnual / 12))
      p.maxMonthsSimulated p.mortgageBalance 0 0
    simpa using h

theorem simulateExtraPaymentStrategy_months_le (p : ExtraParams) :
    (simulateExtraPaymentStrategy p).totalMonths ≤ p.maxMonthsSimulated := by
  unfold simulateExtraPaymentStrategy
  split
  · simp
  · have h := extraLoop_fst_le (p.mortgageRateAnnual / 12)
      (monthlyPaymentFormula p.mortgageBalance p.mortgageTermMonths (p.mortgageRateAnnual / 12))
      p.extraPaymentPerMonth p.maxMonthsSimulated p.mortgageBalance 0 0
    simpa using h

theorem vbMortgageStep_helocBal (rM pmt : ℚ) (s : VBState) :
    (vbMortgageStep rM pmt s).helocBal = s.helocBal := by
  unfold vbMortgageStep
  split <;> rfl

theorem vbMortgageStep_months (rM pmt : ℚ) (s : VBState) :
    (vbMortgageStep rM pmt s).months = s.months := by
  unfold vbMortgageStep
  split <;> rfl

theorem vbRepeatStep_months (chunk : ℚ) (rc : Bool) (s : VBState) :
    (vbRepeatStep chunk rc s).months = s.months := by
  unfold vbRepeatStep
  split
  · dsimp only
    split <;> rfl
  · rfl

theorem vbHelocStep_months (rH hp : ℚ) (s s' : VBState)
    (h : vbHelocStep rH hp s = .ok s') : s'.months = s.months := by
  unfold vbHelocStep at h
  split at h
  · dsimp only at h
    split at h
    · exact Except.noConfusion h
    · injection h with h2
      subst h2
      rfl
  · injection h with h2
    subst h2
    rfl

theorem vbMonth_months (rM rH pmt hp chunk : ℚ) (rc : Bool) (s s' : VBState)
    (h : vbMonth rM rH pmt hp chunk rc s = .ok s') : s'.months = s.months + 1 := by
  unfold vbMonth at h
  cases hh : vbHelocStep rH hp (vbMortgageStep rM pmt { s with months := s.months + 1 }) with
  | error e =>
    rw [hh] at h
    exact Except.noConfusion h
  | ok s2 =>
    rw [hh] at h
    injection h with h2
    subst h2
    rw [vbRepeatStep_months]
    rw [vbHelocStep_months rH hp _ s2 hh, vbMortgageStep_months]

theorem vbLoop_months_le (rM rH pmt hp chunk : ℚ) (rc : Bool) :
    ∀ (fuel : ℕ) (s s' : VBState),
      vbLoop rM rH pmt hp chunk rc fuel s = .ok s' → s'.months ≤ s.months + fuel := by
  intro fuel
  induction fuel with
  | zero =>
    intro s s' h
    injection h with h2
    subst h2
    omega
  | succ f ih =>
    intro s s' h
    simp only [vbLoop] at h
    split at h
    · cases hm : vbMonth rM rH pmt hp chunk rc s with
      | error e =>
        rw [hm] at h
        exact Except.noConfusion h
      | ok s2 =>
        rw [hm] at h
        have h1 := ih s2 s' h
        have h2 := vbMonth_months rM rH pmt hp chunk rc s s2 hm
        omega
    · injection h with h2
      subst h2
      omega

theorem vbLoop_done (rM rH pmt hp chunk : ℚ) (rc : Bool) (s : VBState)
    (h : ¬(s.mortBal > 0 ∨ s.helocBal > 0)) :
    ∀ fuel, vbLoop rM rH pmt hp chunk rc fuel s = .ok s := by
  intro fuel
  cases fuel with
  | zero => rfl
  | succ f =>
    simp only [vbLoop]
    rw [if_neg h]

theorem annuityValue_succ (r c : ℚ) :
    ∀ n : ℕ, annuityValue r c (n + 1) = annuityValue r c n + c * (1 + r) ^ n := by
  intro n
  induction n with
  | zero => simp [annuityValue]
  | succ k ih =>
    have h1 : annuityValue r c (k + 1 + 1) = annuityValue r c (k + 1) * (1 + r) + c := rfl
    have h2 : annuityValue r c (k + 1) = annuityValue r c k * (1 + r) + c := rfl
    rw [h1]
    nth_rewrite 1 [ih]
    nth_rewrite 1 [h2]
    ring

theorem investLoop_eq (r c : ℚ) :
    ∀ (n : ℕ) (ti tv : ℚ),
      investLoop r c n (ti, tv) =
        (ti + (n : ℚ) * c, tv * (1 + r) ^ n + annuityValue r c n) := by
  intro n
  induction n with
  | zero => intro ti tv; simp [investLoop, annuityValue]
  | succ k ih =>
    intro ti tv
    rw [show investLoop r c (k + 1) (ti, tv) = investLoop r c k (ti + c, tv * (1 + r) + c) from rfl]
    rw [ih]
    simp only [Prod.mk.injEq]
    constructor
    · push_cast
      ring
    · rw [annuityValue_succ]
      ring

/-! Claim theorems. -/

/-- C4: for horizon `h > 0` and contribution `c > 0`, the investment
projector's `totalValue` is exactly the ordinary-annuity recurrence value
after `h` months, `totalInvested = c·h`,
`investmentGains = totalValue − totalInvested`, and
`netBenefit = investmentGains − (baselineInterest − bestPaydownInterest)`,
i.e. the opportunity cost is measured against the paydown interest passed
in, not the raw baseline. -/
theorem simulateInvestmentStrategy_annuity (p : InvestmentParams)
    (h1 : 0 < p.investmentTermMonths) (h2 : 0 < p.extraPaymentPerMonth) :
    (simulateInvestmentStrategy p).totalValue =
        annuityValue (p.investmentReturnAnnual / 12) p.extraPaymentPerMonth
          p.investmentTermMonths.toNat ∧
      (simulateInvestmentStrategy p).totalInvested =
        p.extraPaymentPerMonth * (p.investmentTermMonths : ℚ) ∧
      (simulateInvestmentStrategy p).investmentGains =
        (simulateInvestmentStrategy p).totalValue -
          (simulateInvestmentStrategy p).totalInvested ∧
      (simulateInvestmentStrategy p).netBenefit =
        (simulateInvestmentStrategy p).investmentGains -
          (p.baselineInterest - p.bestPaydownInterest) := by
  have hc : ¬(p.extraPaymentPerMonth ≤ 0 ∨ p.investmentTermMonths ≤ 0) := by
    push_neg
    exact ⟨h2, h1⟩
  unfold simulateInvestmentStrategy
  rw [if_neg hc]
  dsimp only
  rw [investLoop_eq]
  refine ⟨by simp, ?_, rfl, rfl⟩
  have hcast : ((p.investmentTermMonths.toNat : ℕ) : ℚ) = ((p.investmentTermMonths : ℤ) : ℚ) := by
    exact_mod_cast Int.toNat_of_nonneg h1.le
  rw [hcast]
  ring

/-- C4 witness: horizon 1 month, contribution 1, return 0, baseline
interest 5, best-paydown interest 3. -/
theorem simulateInvestmentStrategy_annuity_witness :
    (simulateInvestmentStrategy ⟨1, 1, 0, 5, 3⟩).totalValue =
        annuityValue (0 / 12) 1 (1 : ℤ).toNat ∧
      (simulateInvestmentStrategy ⟨1, 1, 0, 5, 3⟩).totalInvested = 1 * ((1 : ℤ) : ℚ) ∧
      (simulateInvestmentStrategy ⟨1, 1, 0, 5, 3⟩).investmentGains =
        (simulateInvestmentStrategy ⟨1, 1, 0, 5, 3⟩).totalValue -
          (simulateInvestmentStrategy ⟨1, 1, 0, 5, 3⟩).totalInvested ∧
      (simulateInvestmentStrategy ⟨1, 1, 0, 5, 3⟩).netBenefit =
        (simulateInvestmentStrategy ⟨1, 1, 0, 5, 3⟩).investmentGains - ((5 : ℚ) - 3) :=
  simulateInvestmentStrategy_annuity ⟨1, 1, 0, 5, 3⟩ (by norm_num) (by norm_num)

/-- C5: with a zero extra payment, the extra-payment strategy returns
exactly the baseline's months-to-payoff and total interest, for every
principal, term, rate and cap. -/
theorem simulateExtraPaymentStrategy_zero_extra_eq_baseline
    (P0 : ℚ) (nM : ℤ) (rA : ℚ) (mx : ℕ) :
    (simulateExtraPaymentStrategy ⟨P0, nM, rA, 0, mx⟩).totalMonths =
        (computeBaselineMortgage ⟨P0, nM, rA, mx⟩).baselineMonths ∧
      (simulateExtraPaymentStrategy ⟨P0, nM, rA, 0, mx⟩).totalInterest =
        (computeBaselineMortgage ⟨P0, nM, rA, mx⟩).totalInterestBaseline := by
  unfold simulateExtraPaymentStrategy computeBaselineMortgage
  dsimp only
  split
  · exact ⟨rfl, rfl⟩
  · exact ⟨by rw [extraLoop_zero], by rw [extraLoop_zero]⟩

/-- C6: non-positive principal or term yields the all-zero result record
from both the baseline amortizer and the extra-payment strategy; both are
total functions, so no error can be raised. -/
theorem degenerate_inputs_all_zero (P0 : ℚ) (nM : ℤ) (rA extra : ℚ) (mx : ℕ)
    (h : P0 ≤ 0 ∨ nM ≤ 0) :
    computeBaselineMortgage ⟨P0, nM, rA, mx⟩ = ⟨0, 0, 0⟩ ∧
      simulateExtraPaymentStrategy ⟨P0, nM, rA, extra, mx⟩ = ⟨0, 0, 0⟩ := by
  unfold computeBaselineMortgage simulateExtraPaymentStrategy
  dsimp only
  rw [if_pos h, if_pos h]
  exact ⟨rfl, rfl⟩

/-- C6 witness: zero principal. -/
theorem degenerate_inputs_all_zero_witness :
    computeBaselineMortgage ⟨0, 360, 1/20, 1200⟩ = ⟨0, 0, 0⟩ ∧
      simulateExtraPaymentStrategy ⟨0, 360, 1/20, 25, 1200⟩ = ⟨0, 0, 0⟩ :=
  degenerate_inputs_all_zero 0 360 (1/20) 25 1200 (Or.inl le_rfl)

/-- C8: for a non-degenerate loan, the reported `monthlyPayment` of the
extra-payment strategy is the baseline monthly payment plus the nominal
`extraPaymentPerMonth`, independent of any clamping in the final month. -/
theorem extraPayment_monthlyPayment_nominal (P0 : ℚ) (nM : ℤ) (rA extra : ℚ) (mx : ℕ)
    (h1 : 0 < P0) (h2 : 0 < nM) :
    (simulateExtraPaymentStrategy ⟨P0, nM, rA, extra, mx⟩).monthlyPayment =
      (computeBaselineMortgage ⟨P0, nM, rA, mx⟩).baselineMonthlyPayment + extra := by
  have hc : ¬(P0 ≤ 0 ∨ nM ≤ 0) := by
    push_neg
    exact ⟨h1, h2⟩
  unfold simulateExtraPaymentStrategy computeBaselineMortgage
  dsimp only
  rw [if_neg hc, if_neg hc]

/-- C8 witness: a 100-unit zero-rate loan over 2 months with extra 7. -/
theorem extraPayment_monthlyPayment_nominal_witness :
    (simulateExtraPaymentStrategy ⟨100, 2, 0, 7, 1200⟩).monthlyPayment =
      (computeBaselineMortgage ⟨100, 2, 0, 1200⟩).baselineMonthlyPayment + 7 :=
  extraPayment_monthlyPayment_nominal 100 2 0 7 1200 (by norm_num) (by norm_num)

/-- C9: every simulation loop runs at most `maxMonthsSimulated` iterations,
so the month count each simulator returns never exceeds the cap (for the
velocity simulator, `vbMonthsOf` reads the reported month count, with `0`
for the error outcome); termination itself is structural, since each loop
is fuel recursion on the remaining allowance of the cap. -/
theorem simulators_month_cap (pB : BaselineParams) (pE : ExtraParams) (pV : VelocityParams) :
    (computeBaselineMortgage pB).baselineMonths ≤ pB.maxMonthsSimulated ∧
      (simulateExtraPaymentStrategy pE).totalMonths ≤ pE.maxMonthsSimulated ∧
      vbMonthsOf (simulateVelocityBanking pV) ≤ pV.maxMonthsSimulated := by
  refine ⟨computeBaselineMortgage_months_le pB, simulateExtraPaymentStrategy_months_le pE, ?_⟩
  unfold simulateVelocityBanking
  split
  · simp only [vbMonthsOf]
    exact computeBaselineMortgage_months_le (velocityLoan pV)
  · cases hl : vbLoop (pV.mortgageRateAnnual / 12) (pV.helocRateAnnual / 12)
        (computeBaselineMortgage (velocityLoan pV)).baselineMonthlyPayment
        pV.helocPaymentPerMonth pV.helocChunkAmount pV.repeatChunks
        pV.maxMonthsSimulated (vbInitialState pV) with
    | error e => simp [hl, vbMonthsOf]
    | ok s =>
      simp only [hl, vbMonthsOf, vbAssemble]
      have h := vbLoop_months_le (pV.mortgageRateAnnual / 12) (pV.helocRateAnnual / 12)
        (computeBaselineMortgage (velocityLoan pV)).baselineMonthlyPayment
        pV.helocPaymentPerMonth pV.helocChunkAmount pV.repeatChunks
        pV.maxMonthsSimulated (vbInitialState pV) s hl
      simpa [vbInitialState] using h

/-- C1: whenever the credit-line step of the velocity loop is reached in a
month where the fixed HELOC payment is at most that month's line interest
while the line balance exceeds 0.01, the remaining simulation immediately
returns the distinct negative-amortization error — it neither caps the
payment silently nor keeps looping toward the safety cap.  `vbLoop` is the
loop `simulateVelocityBanking` enters for every `helocChunkAmount > 0`, and
`s` ranges over all loop states, so this covers the condition arising in
any simulated month. -/
theorem vbLoop_negAmortization_error (rM rH pmt helocPmt chunk : ℚ) (rc : Bool)
    (fuel : ℕ) (s : VBState) (hfuel : 0 < fuel)
    (hbal : s.helocBal > 0.01) (hpay : helocPmt ≤ s.helocBal * rH) :
    vbLoop rM rH pmt helocPmt chunk rc fuel s = .error negAmortizationMsg := by
  have hb0 : s.helocBal > 0 := lt_trans (by norm_num) hbal
  have ht : (vbMortgageStep rM pmt { s with months := s.months + 1 }).helocBal = s.helocBal :=
    vbMortgageStep_helocBal rM pmt _
  have hstep : vbHelocStep rH helocPmt (vbMortgageStep rM pmt { s with months := s.months + 1 })
      = .error negAmortizationMsg := by
    unfold vbHelocStep
    rw [ht]
    rw [if_pos hb0]
    dsimp only
    rw [if_pos ⟨hpay, hbal⟩]
  have hmonth : vbMonth rM rH pmt helocPmt chunk rc s = .error negAmortizationMsg := by
    unfold vbMonth
    rw [hstep]
  cases fuel with
  | zero => exact absurd hfuel (by omega)
  | succ f =>
    simp only [vbLoop]
    rw [if_pos (Or.inr hb0), hmonth]

/-- C1 witness: a state with line balance 1, monthly line rate 1, fixed
line payment 1 ≤ interest 1, one month of fuel left. -/
theorem vbLoop_negAmortization_error_witness :
    vbLoop 0 1 0 1 0 false 1 ⟨0, 1, 0, 0, 0⟩ = .error negAmortizationMsg :=
  vbLoop_negAmortization_error 0 1 0 1 0 false 1 ⟨0, 1, 0, 0, 0⟩ (by norm_num)
    (by norm_num) (by norm_num)

/-- C2: with `helocChunkAmount ≤ 0` the velocity simulator returns exactly
the baseline result — combined months equal baseline months, mortgage
interest equals the baseline total, HELOC interest is 0, combined interest
equals the baseline total, and zero interest/time saved — via the early
branch that never enters the two-balance loop. -/
theorem simulateVelocityBanking_zero_chunk (p : VelocityParams)
    (h : p.helocChunkAmount ≤ 0) :
    simulateVelocityBanking p = .ok
      { baselineMonthlyPayment := (computeBaselineMortgage (velocityLoan p)).baselineMonthlyPayment
        baselineMonths := (computeBaselineMortgage (velocityLoan p)).baselineMonths
        totalInterestBaseline := (computeBaselineMortgage (velocityLoan p)).totalInterestBaseline
        monthsVB := (computeBaselineMortgage (velocityLoan p)).baselineMonths
        totalInterestMortgageVB := (computeBaselineMortgage (velocityLoan p)).totalInterestBaseline
        totalInterestHelocVB := 0
        totalInterestVBCombined := (computeBaselineMortgage (velocityLoan p)).totalInterestBaseline
        interestSaved := 0
        timeSavedMonths := 0
        yearsSaved := 0 } := by
  unfold simulateVelocityBanking
  rw [if_pos h]

/-- C2 witness: zero chunk amount. -/
theorem simulateVelocityBanking_zero_chunk_witness :
    simulateVelocityBanking ⟨0, 0, 0, 0, 0, 0, false, 1200⟩ = .ok
      { baselineMonthlyPayment :=
          (computeBaselineMortgage (velocityLoan ⟨0, 0, 0, 0, 0, 0, false, 1200⟩)).baselineMonthlyPayment
        baselineMonths :=
          (computeBaselineMortgage (velocityLoan ⟨0, 0, 0, 0, 0, 0, false, 1200⟩)).baselineMonths
        totalInterestBaseline :=
          (computeBaselineMortgage (velocityLoan ⟨0, 0, 0, 0, 0, 0, false, 1200⟩)).totalInterestBaseline
        monthsVB :=
          (computeBaselineMortgage (velocityLoan ⟨0, 0, 0, 0, 0, 0, false, 1200⟩)).baselineMonths
        totalInterestMortgageVB :=
          (computeBaselineMortgage (velocityLoan ⟨0, 0, 0, 0, 0, 0, false, 1200⟩)).totalInterestBaseline
        totalInterestHelocVB := 0
        totalInterestVBCombined :=
          (computeBaselineMortgage (velocityLoan ⟨0, 0, 0, 0, 0, 0, false, 1200⟩)).totalInterestBaseline
        interestSaved := 0
        timeSavedMonths := 0
        yearsSaved := 0 } :=
  simulateVelocityBanking_zero_chunk ⟨0, 0, 0, 0, 0, 0, false, 1200⟩ (by norm_num)

/-- C10: with a positive chunk but non-positive mortgage balance, the
initial chunk is clamped to the mortgage balance, the loop is never
entered, and the simulator returns the all-zero record — never the
negative-amortization error — extending the all-zero degenerate contract
to the velocity path. -/
theorem simulateVelocityBanking_nonpos_mortgage (p : VelocityParams)
    (hchunk : 0 < p.helocChunkAmount) (hbal : p.mortgageBalance ≤ 0) :
    simulateVelocityBanking p = .ok ⟨0, 0, 0, 0, 0, 0, 0, 0, 0, 0⟩ := by
  have hc : ¬p.helocChunkAmount ≤ 0 := not_le.mpr hchunk
  have hb : computeBaselineMortgage (velocityLoan p) = ⟨0, 0, 0⟩ := by
    unfold computeBaselineMortgage velocityLoan
    dsimp only
    rw [if_pos (Or.inl hbal)]
  have hmin : min p.helocChunkAmount p.mortgageBalance = p.mortgageBalance :=
    min_eq_right (hbal.trans hchunk.le)
  have hs0 : ¬((vbInitialState p).mortBal > 0 ∨ (vbInitialState p).helocBal > 0) := by
    unfold vbInitialState
    dsimp only
    rw [hmin]
    push_neg
    exact ⟨by simp, hbal⟩
  unfold simulateVelocityBanking
  rw [if_neg hc, hb]
  dsimp only
  rw [vbLoop_done _ _ _ _ _ _ _ hs0]
  unfold vbAssemble vbInitialState
  dsimp only
  norm_num

/-- C10 witness: zero mortgage balance, chunk 5. -/
theorem simulateVelocityBanking_nonpos_mortgage_witness :
    simulateVelocityBanking ⟨0, 10, 0, 0, 5, 1, false, 1200⟩ =
      .ok ⟨0, 0, 0, 0, 0, 0, 0, 0, 0, 0⟩ :=
  simulateVelocityBanking_nonpos_mortgage ⟨0, 10, 0, 0, 5, 1, false, 1200⟩
    (by norm_num) (by norm_num)

theorem extra_name_ne_velocity : ("Extra Payment" : String) ≠ "Velocity Banking" := by decide

theorem paydown_type_ne_investment : ("paydown" : String) ≠ "investment" := by decide

/-- C3: the orchestrator picks Velocity Banking as best paydown strategy
exactly when its interest saved vs. baseline is strictly greater than the
extra-payment strategy's (tie → Extra Payment), and picks the investment
strategy as best overall exactly when its `netBenefit` is strictly
positive (tie at 0 → the best paydown strategy). -/
theorem simulateAllStrategies_winner_selection (p : AllParams) (r : AllStrategiesResult)
    (h : simulateAllStrategies p = .ok r) :
    (r.bestPaydownStrategy.name = "Velocity Banking" ↔
        r.comparisons.velocityVsBaseline.interestSaved >
          r.comparisons.extraVsBaseline.interestSaved) ∧
      (¬r.comparisons.velocityVsBaseline.interestSaved >
          r.comparisons.extraVsBaseline.interestSaved →
        r.bestPaydownStrategy.name = "Extra Payment") ∧
      (r.bestOverallStrategy.type = "investment" ↔ r.investment.netBenefit > 0) ∧
      (¬r.investment.netBenefit > 0 →
        r.bestOverallStrategy.name = r.bestPaydownStrategy.name ∧
        r.bestOverallStrategy.type = "paydown") := by
  unfold simulateAllStrategies at h
  dsimp only at h
  split at h
  · exact Except.noConfusion h
  · injection h with h2
    subst h2
    dsimp only
    split
    · refine ⟨iff_of_true rfl (by assumption), ?_, ?_, ?_⟩
      · intro hn
        exact absurd (by assumption) hn
      · split
        · exact iff_of_true rfl (by assumption)
        · exact iff_of_false paydown_type_ne_investment (by assumption)
      · split
        · intro hn
          exact absurd (by assumption) hn
        · intro _
          exact ⟨rfl, rfl⟩
    · refine ⟨iff_of_false extra_name_ne_velocity (by assumption), fun _ => rfl, ?_, ?_⟩
      · split
        · exact iff_of_true rfl (by assumption)
        · exact iff_of_false paydown_type_ne_investment (by assumption)
      · split
        · intro hn
          exact absurd (by assumption) hn
        · intro _
          exact ⟨rfl, rfl⟩

/-- C3 witness. -/
theorem simulateAllStrategies_winner_selection_witness :
    (bestPickResult.bestPaydownStrategy.name = "Velocity Banking" ↔
        bestPickResult.comparisons.velocityVsBaseline.interestSaved >
          bestPickResult.comparisons.extraVsBaseline.interestSaved) ∧
      (¬bestPickResult.comparisons.velocityVsBaseline.interestSaved >
          bestPickResult.comparisons.extraVsBaseline.interestSaved →
        bestPickResult.bestPaydownStrategy.name = "Extra Payment") ∧
      (bestPickResult.bestOverallStrategy.type = "investment" ↔
        bestPickResult.investment.netBenefit > 0) ∧
      (¬bestPickResult.investment.netBenefit > 0 →
        bestPickResult.bestOverallStrategy.name = bestPickResult.bestPaydownStrategy.name ∧
        bestPickResult.bestOverallStrategy.type = "paydown") :=
  simulateAllStrategies_winner_selection bestPickParams bestPickResult
    (by norm_num [simulateAllStrategies, computeBaselineMortgage,
      simulateExtraPaymentStrategy, simulateVelocityBanking, velocityLoan,
      simulateInvestmentStrategy, bestPickParams, bestPickResult])

/-- C7: the velocity-vs-extra comparison record is derived exactly from the
two strategy results: `interestSaved` is their interest difference,
`timeSavedMonths` their month difference, and `yearsSaved` is
`timeSavedMonths / 12`. -/
theorem velocityVsExtra_derived (p : AllParams) (r : AllStrategiesResult)
    (h : simulateAllStrategies p = .ok r) :
    r.comparisons.velocityVsExtra.interestSaved =
        r.extraPayment.totalInterest - r.velocity.totalInterest ∧
      r.comparisons.velocityVsExtra.timeSavedMonths =
        (r.extraPayment.totalMonths : ℤ) - (r.velocity.totalMonths : ℤ) ∧
      r.comparisons.velocityVsExtra.yearsSaved =
        ((r.comparisons.velocityVsExtra.timeSavedMonths : ℤ) : ℚ) / 12 := by
  unfold simulateAllStrategies at h
  dsimp only at h
  split at h
  · exact Except.noConfusion h
  · injection h with h2
    subst h2
    exact ⟨rfl, rfl, rfl⟩

/-- C7 witness. -/
theorem velocityVsExtra_derived_witness :
    comparatorResult.comparisons.velocityVsExtra.interestSaved =
        comparatorResult.extraPayment.totalInterest -
          comparatorResult.velocity.totalInterest ∧
      comparatorResult.comparisons.velocityVsExtra.timeSavedMonths =
        (comparatorResult.extraPayment.totalMonths : ℤ) -
          (comparatorResult.velocity.totalMonths : ℤ) ∧
      comparatorResult.comparisons.velocityVsExtra.yearsSaved =
        ((comparatorResult.comparisons.velocityVsExtra.timeSavedMonths : ℤ) : ℚ) / 12 :=
  velocityVsExtra_derived comparatorParams comparatorResult
    (by norm_num [simulateAllStrategies, computeBaselineMortgage,
      simulateExtraPaymentStrategy, simulateVelocityBanking, velocityLoan,
      simulateInvestmentStrategy, comparatorParams, comparatorResult])

end SmartMortgage
